import Mathlib

/-
Verification of the Genkan asset-resolution and typography subsystems.

The definitions below are a shallow embedding of the Rust sources
src/generator.rs and src/config.rs.  Pure Rust functions become Lean
functions; the filesystem, the network, the tera template engine, the
qrcode and image libraries are modelled as oracle fields of an Env
record, with the control flow around them translated literally from the
source.  Rust u32 values are Nat; byte buffers are List Nat with entries
below 256; f32 arithmetic is emulated exactly in integer arithmetic
(round to nearest, ties to even, 24 bit significand; all quantities in
the resize computation are in the normal range, so overflow and
subnormal handling are not needed).
-/

namespace Genkan

/-! Basic string and byte utilities shared by the embedding. -/

/-- Whitespace as matched by the regex class and by str trim in Rust
(Unicode White_Space property). -/
def rustIsSpace (c : Char) : Bool :=
  let n := c.toNat
  (0x09 <= n && n <= 0x0D) || n = 0x20 || n = 0x85 || n = 0xA0 || n = 0x1680 ||
  (0x2000 <= n && n <= 0x200A) || n = 0x2028 || n = 0x2029 || n = 0x202F ||
  n = 0x205F || n = 0x3000

/-- Rust str trim on a character list. -/
def rustTrim (l : List Char) : List Char :=
  ((l.dropWhile rustIsSpace).reverse.dropWhile rustIsSpace).reverse

/-- Rust str starts_with. -/
def strStartsWith (s pat : String) : Bool :=
  pat.data.isPrefixOf s.data

/-- Rust str ends_with. -/
def strEndsWith (s pat : String) : Bool :=
  pat.data.isSuffixOf s.data

/-- Substring search on character lists, used for Rust str contains. -/
def listContainsSub (pat : List Char) : List Char → Bool
  | [] => pat.isEmpty
  | c :: rest => pat.isPrefixOf (c :: rest) || listContainsSub pat rest

/-- Rust str contains with a string pattern. -/
def strContains (s pat : String) : Bool :=
  listContainsSub pat.data s.data

/-- Rust str to_lowercase, restricted to ASCII letters, which is all the
configuration validation compares. -/
def asciiLower (s : String) : String :=
  String.mk (s.data.map Char.toLower)

/-- Rust std path extension: the part of the final component after the
last dot, none when there is no dot or when the only dot is the leading
character of the component. -/
def pathExtension (p : String) : Option String :=
  let name := (p.data.reverse.takeWhile (fun c => c ≠ '/')).reverse
  let revName := name.reverse
  let ext := revName.takeWhile (fun c => c ≠ '.')
  if ext.length = revName.length then none
  else if revName.drop (ext.length + 1) = [] then none
  else some (String.mk ext.reverse)

/-! Base64 with the standard alphabet and padding, as produced by the
base64 crate engine general_purpose STANDARD. -/

def base64Alphabet : List Char :=
  "ABCDEFGHIJKLMNOPQRSTUVWXYZabcdefghijklmnopqrstuvwxyz0123456789+/".data

def base64Digit (n : Nat) : Char := base64Alphabet.getD n 'A'

def base64Chunks : List Nat → List Char
  | [] => []
  | [a] => [base64Digit (a / 4), base64Digit (a % 4 * 16), '=', '=']
  | [a, b] => [base64Digit (a / 4), base64Digit (a % 4 * 16 + b / 16),
               base64Digit (b % 16 * 4), '=']
  | a :: b :: c :: rest =>
      base64Digit (a / 4) :: base64Digit (a % 4 * 16 + b / 16) ::
      base64Digit (b % 16 * 4 + c / 64) :: base64Digit (c % 64) ::
      base64Chunks rest

/-- Base64 encoding of a byte buffer as a string. -/
def base64String (bs : List Nat) : String := String.mk (base64Chunks bs)

/-! UTF-8 validation and decoding, as performed by Rust String from_utf8:
well formed one to four byte sequences, continuation bytes in 80..BF,
no overlong forms, no surrogates, maximum scalar value 10FFFF. -/

def isCont (b : Nat) : Bool := 0x80 ≤ b && b ≤ 0xBF

def utf8DecodeAux : List Nat → Option (List Char)
  | [] => some []
  | b :: rest =>
    if b < 0x80 then
      (utf8DecodeAux rest).map (fun cs => Char.ofNat b :: cs)
    else if 0xC2 ≤ b && b ≤ 0xDF then
      match rest with
      | b1 :: rest1 =>
        if isCont b1 then
          (utf8DecodeAux rest1).map
            (fun cs => Char.ofNat ((b - 0xC0) * 64 + (b1 - 0x80)) :: cs)
        else none
      | [] => none
    else if 0xE0 ≤ b && b ≤ 0xEF then
      match rest with
      | b1 :: b2 :: rest2 =>
        let lowOk : Bool :=
          if b = 0xE0 then 0xA0 ≤ b1 && b1 ≤ 0xBF
          else if b = 0xED then 0x80 ≤ b1 && b1 ≤ 0x9F
          else isCont b1
        if lowOk && isCont b2 then
          (utf8DecodeAux rest2).map
            (fun cs =>
              Char.ofNat ((b - 0xE0) * 4096 + (b1 - 0x80) * 64 + (b2 - 0x80)) :: cs)
        else none
      | _ => none
    else if 0xF0 ≤ b && b ≤ 0xF4 then
      match rest with
      | b1 :: b2 :: b3 :: rest3 =>
        let lowOk : Bool :=
          if b = 0xF0 then 0x90 ≤ b1 && b1 ≤ 0xBF
          else if b = 0xF4 then 0x80 ≤ b1 && b1 ≤ 0x8F
          else isCont b1
        if lowOk && isCont b2 && isCont b3 then
          (utf8DecodeAux rest3).map
            (fun cs =>
              Char.ofNat ((b - 0xF0) * 262144 + (b1 - 0x80) * 4096 +
                          (b2 - 0x80) * 64 + (b3 - 0x80)) :: cs)
        else none
      | _ => none
    else none

/-- Rust String from_utf8 on a byte buffer. -/
def utf8Decode (bs : List Nat) : Option String :=
  (utf8DecodeAux bs).map String.mk

/-- Bytes of an ASCII string, for building concrete byte buffers. -/
def asciiBytes (s : String) : List Nat := s.data.map Char.toNat

/-! Exact emulation of IEEE 754 binary32 arithmetic, for the dimension
computation in resize_image (generator.rs lines 266 to 272).  A
nonnegative binary32 value is represented by a mantissa and a binary
exponent, the denoted value being m times 2 to the power e minus 23,
with m zero or in the interval from 2 to the 23rd up to 2 to the 24th.
Rounding is round to nearest with ties to even.  Every quantity in the
resize computation on u32 inputs lies in the nonnegative normal range
of binary32 together with zero, so negative values, overflow to
infinity and subnormals need not be represented.  The emulation was
cross checked against hardware binary32 arithmetic on fifty thousand
random u32 resize inputs. -/

/-- Nonnegative binary32 value: mantissa and exponent.  The value is
m times 2 to the power of e minus 23. -/
structure F32 where
  m : Nat
  e : Int
deriving DecidableEq, Repr

/-- Integer division rounded to nearest with ties to even. -/
def rndDiv (n d : Nat) : Nat :=
  let q := n / d
  let r := n % d
  if 2 * r < d then q
  else if d < 2 * r then q + 1
  else if q % 2 = 0 then q else q + 1

/-- Floor of the base two logarithm, by structural recursion on fuel so
that the kernel can evaluate it. -/
def log2fuel : Nat → Nat → Nat
  | 0, _ => 0
  | fuel + 1, n => if n ≤ 1 then 0 else 1 + log2fuel fuel (n / 2)

def log2floor (n : Nat) : Nat := log2fuel 64 n

/-- Renormalize after rounding: a rounded mantissa that reached 2 to
the 24th carries into the exponent. -/
def normRound (m0 : Nat) (e : Int) : F32 :=
  if m0 = 2 ^ 24 then ⟨2 ^ 23, e + 1⟩ else ⟨m0, e⟩

/-- Rust u32 as f32 conversion: exact below 2 to the 24th, rounded to
nearest even above. -/
def natToF32 (n : Nat) : F32 :=
  if n = 0 then ⟨0, 0⟩
  else
    let e := log2floor n
    if e ≤ 23 then ⟨n * 2 ^ (23 - e), (e : Int)⟩
    else normRound (rndDiv n (2 ^ (e - 23))) (e : Int)

/-- Binary32 division, for a nonnegative dividend and a positive normal
divisor. -/
def F32.div (a b : F32) : F32 :=
  if a.m = 0 then ⟨0, 0⟩
  else
    let eDiff := a.e - b.e
    if b.m ≤ a.m then normRound (rndDiv (a.m * 2 ^ 23) b.m) eDiff
    else normRound (rndDiv (a.m * 2 ^ 24) b.m) (eDiff - 1)

/-- Binary32 multiplication of nonnegative values. -/
def F32.mul (a b : F32) : F32 :=
  if a.m = 0 || b.m = 0 then ⟨0, 0⟩
  else
    let p := a.m * b.m
    if p < 2 ^ 47 then normRound (rndDiv p (2 ^ 23)) (a.e + b.e)
    else normRound (rndDiv p (2 ^ 24)) (a.e + b.e + 1)

/-- Rust f32 as u32 cast on a nonnegative value: truncate toward zero,
saturating at the top of the u32 range. -/
def F32.toU32trunc (x : F32) : Nat :=
  if x.m = 0 then 0
  else if x.e < 0 then 0
  else
    let k := x.e.toNat
    if k ≤ 23 then min (x.m / 2 ^ (23 - k)) (2 ^ 32 - 1)
    else min (x.m * 2 ^ (k - 23)) (2 ^ 32 - 1)

/-- Dimension computation of Generator resize_image, generator.rs lines
266 to 272: the scale factor, target over the longer edge, is computed
in f32, the shorter edge is the f32 product truncated by the as u32
cast, and the longer edge slot receives target_size itself. -/
def newDims (width height target : Nat) : Nat × Nat :=
  if height < width then
    let sc := F32.div (natToF32 target) (natToF32 width)
    (target, (F32.mul (natToF32 height) sc).toU32trunc)
  else
    let sc := F32.div (natToF32 target) (natToF32 height)
    ((F32.mul (natToF32 width) sc).toU32trunc, target)

/-! The text rewriting pipeline of process_svg_for_inline (generator.rs
lines 286 to 373).  Each regex replace_all of the source is embedded as
a left to right scan: at every position the pattern either has a
uniquely determined match (every quantifier in the source patterns is
bounded by a character class that cannot cross its closing literal, so
leftmost first semantics leaves no choice) or none, and on a match the
scan emits the replacement and resumes after the matched text, exactly
as replace_all does. -/

/-- Split a character list at the first occurrence of a stop character:
the part before it and the part after it, or none when absent. -/
def splitOnChar (stop : Char) : List Char → Option (List Char × List Char)
  | [] => none
  | c :: rest =>
    if c = stop then some ([], rest)
    else (splitOnChar stop rest).map (fun p => (c :: p.1, p.2))

/-- One replace_all pass: scan left to right with a match function
that returns the matched length together with the replacement text.
On a match of length k at the head, the replacement is emitted and the
scan resumes after the match; rest.drop of k minus one is the text
after the match.  The recursion is structural on a fuel argument so
that the kernel can evaluate the scan; the fuel never runs out when it
starts at the length of the text, because every match consumes at
least the one character at the head. -/
def scanRewriteFuel (matchAt : List Char → Option (Nat × List Char)) :
    Nat → List Char → List Char
  | 0, l => l
  | _, [] => []
  | fuel + 1, c :: rest =>
    match matchAt (c :: rest) with
    | some (k, repl) => repl ++ scanRewriteFuel matchAt fuel (rest.drop (k - 1))
    | none => c :: scanRewriteFuel matchAt fuel rest

/-- One replace_all pass over a whole text. -/
def scanRewrite (matchAt : List Char → Option (Nat × List Char))
    (l : List Char) : List Char :=
  scanRewriteFuel matchAt l.length l

/-- Match function for the XML declaration pattern in generator.rs line
296: literal open, any run without a question mark, then the close. -/
def xmlDeclMatch (l : List Char) : Option (Nat × List Char) :=
  if "<?xml".data.isPrefixOf l then
    match splitOnChar '?' (l.drop 5) with
    | some (body, after) =>
      match after with
      | '>' :: _ => some (5 + body.length + 2, [])
      | _ => none
    | none => none
  else none

/-- Match function for the comment pattern in generator.rs line 301:
the body runs to the first closing angle bracket, which must be
preceded by two dashes. -/
def commentMatch (l : List Char) : Option (Nat × List Char) :=
  if "<!--".data.isPrefixOf l then
    match splitOnChar '>' (l.drop 4) with
    | some (body, _) =>
      if 2 ≤ body.length ∧ body.reverse.take 2 = ['-', '-'] then
        some (4 + body.length + 1, [])
      else none
    | none => none
  else none

/-- Match function for the width and height removal patterns in
generator.rs lines 306 and 310: leading whitespace, the attribute name,
a quoted value; the whole match is removed. -/
def attrRemoveMatch (name : List Char) (l : List Char) : Option (Nat × List Char) :=
  match l with
  | [] => none
  | c :: _ =>
    if rustIsSpace c then
      let ws := l.takeWhile rustIsSpace
      let t := l.drop ws.length
      if (name ++ "=\"".data).isPrefixOf t then
        match splitOnChar '"' (t.drop (name.length + 2)) with
        | some (v, _) => some (ws.length + name.length + 2 + v.length + 1, [])
        | none => none
      else none
    else none

/-- Match function for the fill and stroke attribute patterns in
generator.rs lines 314 and 329: a quoted attribute value is rewritten
to currentColor unless the whole match is the attribute set to none. -/
def attrColorMatch (name : List Char) (l : List Char) : Option (Nat × List Char) :=
  if (name ++ "=\"".data).isPrefixOf l then
    match splitOnChar '"' (l.drop (name.length + 2)) with
    | some (v, _) =>
      let k := name.length + 2 + v.length + 1
      if v = "none".data then some (k, name ++ "=\"".data ++ v ++ ['"'])
      else some (k, name ++ "=\"currentColor\"".data)
    | none => none
  else none

/-- Match function for the style declaration patterns in generator.rs
lines 344 and 358: after the name and colon, optional whitespace, then
a captured token of at least one character running to the next
semicolon or the end of the text; the replacement is the name, a colon
and either the captured token (when it trims to none) or currentColor.
When everything up to the semicolon is whitespace, the greedy
whitespace part backs off one character so the capture is the last
whitespace character. -/
def styleColorMatch (name : List Char) (l : List Char) : Option (Nat × List Char) :=
  if (name ++ [':']).isPrefixOf l then
    let rest := l.drop (name.length + 1)
    let run := rest.takeWhile (fun c => c ≠ ';')
    if run.isEmpty then none
    else
      let ws := run.takeWhile rustIsSpace
      let cap := if ws.length = run.length then run.drop (run.length - 1)
                 else run.drop ws.length
      let k := name.length + 1 + run.length
      if rustTrim cap = "none".data then some (k, name ++ [':'] ++ cap)
      else some (k, name ++ ":currentColor".data)
  else none

/-- The eight rewriting passes of process_svg_for_inline, in source
order (generator.rs lines 294 to 369). -/
def processSvgContent (s : List Char) : List Char :=
  let s1 := scanRewrite xmlDeclMatch s
  let s2 := scanRewrite commentMatch s1
  let s3 := scanRewrite (attrRemoveMatch "width".data) s2
  let s4 := scanRewrite (attrRemoveMatch "height".data) s3
  let s5 := scanRewrite (attrColorMatch "fill".data) s4
  let s6 := scanRewrite (attrColorMatch "stroke".data) s5
  let s7 := scanRewrite (styleColorMatch "fill".data) s6
  scanRewrite (styleColorMatch "stroke".data) s7

/-- Generator process_svg_for_inline, generator.rs lines 286 to 373:
decode the bytes as UTF-8 (an error is fatal for this asset), run the
eight rewriting passes, and prepend the inline marker.  The regex
compilation error paths of the source cannot fire because the patterns
are constants, so they are not modelled. -/
def process_svg_for_inline (svgData : List Nat) : Except String String :=
  match utf8Decode svgData with
  | none => .error "Failed to parse SVG as UTF-8"
  | some s => .ok ("__INLINE_SVG__" ++ String.mk (processSvgContent s.data))

end Genkan

deriving instance DecidableEq for Except

namespace Genkan

/-! The configuration data model of src/config.rs, with the serde
defaults written out.  Only fields the generator reads are modelled
with their Rust types; TOML parsing is outside the embedded core. -/

structure ProfileAssets where
  avatar : String
  background : Option String
  background_image : Option String
deriving DecidableEq, Repr

structure SocialLink where
  icon : String
  url : String
  title : Option String
deriving DecidableEq, Repr

structure Profile where
  name : String
  bio : String
  social_links : List SocialLink
  light : ProfileAssets
  dark : ProfileAssets
deriving DecidableEq, Repr

structure ThemeColors where
  primary_color : String
  secondary_color : String
  background_color : String
  header_color : String
  bio_color : String
  link_title_color : String
  link_description_color : String
deriving DecidableEq, Repr

/-- Serde defaults of ThemeColors (config.rs lines 112 to 124). -/
def ThemeColors.default : ThemeColors :=
  { primary_color := "#000000"
    secondary_color := "#000000"
    background_color := "#ffffff"
    header_color := "#000000"
    bio_color := "rgba(0, 0, 0, 0.7)"
    link_title_color := "#000000"
    link_description_color := "rgba(0, 0, 0, 0.6)" }

structure TypographyStyle where
  size : Option String
  font : Option String
  weight : Option String
  style : Option String
  color : Option String
  color_dark : Option String
deriving DecidableEq, Repr

/-- The all absent TypographyStyle, the derived serde default
(config.rs line 140). -/
def TypographyStyle.empty : TypographyStyle :=
  { size := none, font := none, weight := none, style := none,
    color := none, color_dark := none }

structure Typography where
  default : TypographyStyle
  header : TypographyStyle
  bio : TypographyStyle
  link_title : TypographyStyle
  link_description : TypographyStyle
deriving DecidableEq, Repr

/-- Built in Typography default (config.rs lines 156 to 201). -/
def Typography.builtin : Typography :=
  { default :=
      { size := some "16px", font := some "system-ui, -apple-system, sans-serif",
        weight := some "normal", style := some "normal",
        color := some "#000000", color_dark := none }
    header :=
      { size := some "2rem", font := none, weight := some "700",
        style := some "normal", color := some "#000000", color_dark := none }
    bio :=
      { size := some "1.1rem", font := none, weight := some "normal",
        style := some "normal", color := some "rgba(0, 0, 0, 0.7)",
        color_dark := none }
    link_title :=
      { size := some "1.1rem", font := none, weight := some "600",
        style := some "normal", color := some "#000000", color_dark := none }
    link_description :=
      { size := some "0.9rem", font := none, weight := some "normal",
        style := some "normal", color := some "rgba(0, 0, 0, 0.6)",
        color_dark := none } }

structure Theme where
  name : String
  button_style : String
  font_family : String
  link_spacing : String
  typography : Typography
  light : ThemeColors
  dark : ThemeColors
deriving DecidableEq, Repr

structure DarkMode where
  mode : String
deriving DecidableEq, Repr

structure ImageSettings where
  avatar_size : Nat
  social_icon_size : Nat
  link_icon_size : Nat
  favicon_size : Nat
deriving DecidableEq, Repr

/-- Serde defaults of ImageSettings (config.rs lines 233 to 242). -/
def ImageSettings.default : ImageSettings :=
  { avatar_size := 512, social_icon_size := 128,
    link_icon_size := 128, favicon_size := 64 }

structure Meta where
  title : String
  description : String
  page_url : Option String
  favicon : Option String
  custom_css : Option String
  analytics : Option String
  show_footer : Bool
  share_title : Option String
deriving DecidableEq, Repr

structure Link where
  title : Option String
  url : Option String
  icon : Option String
  description : Option String
  link_type : String
  height : Option String
deriving DecidableEq, Repr

structure Config where
  profile : Profile
  theme : Theme
  meta : Meta
  links : List Link
  dark_mode : DarkMode
  image : ImageSettings
deriving DecidableEq, Repr

structure ResolvedTypography where
  size : String
  font : String
  weight : String
  style : String
  color : String
  color_dark : Option String
deriving DecidableEq, Repr

/-- Typography resolve, config.rs lines 262 to 301: the cascade for one
role, with the legacy light and dark color parameters. -/
def Typography.resolve (self : Typography) (element : TypographyStyle)
    (legacy_color : Option String) (legacy_color_dark : Option String) :
    ResolvedTypography :=
  { size := (element.size.or self.default.size).getD "16px"
    font := (element.font.or self.default.font).getD
      "system-ui, -apple-system, sans-serif"
    weight := (element.weight.or self.default.weight).getD "normal"
    style := (element.style.or self.default.style).getD "normal"
    color := ((element.color.or legacy_color).or self.default.color).getD
      "#000000"
    color_dark := (element.color_dark.or legacy_color_dark).or
      self.default.color_dark }

/-- Link validation loop of Config validate (config.rs lines 449 to
482); the height warning for space links is only a printed message. -/
def validateLinks : Nat → List Link → Except String Unit
  | _, [] => .ok ()
  | idx, link :: rest =>
    let lt := asciiLower link.link_type
    if lt ≠ "block" ∧ lt ≠ "space" then
      .error "Invalid link_type"
    else if lt = "block" ∧ (link.title.getD "").isEmpty then
      .error "Link title cannot be empty for block type"
    else validateLinks (idx + 1) rest

/-- Config validate, config.rs lines 429 to 485. -/
def Config.validate (self : Config) : Except String Unit :=
  if self.profile.name.isEmpty then
    .error "Profile name cannot be empty"
  else if self.links.isEmpty then
    .error "At least one link must be defined"
  else
    let mode := asciiLower self.dark_mode.mode
    if mode ≠ "auto" ∧ mode ≠ "light" ∧ mode ≠ "dark" ∧ mode ≠ "disable" then
      .error "Invalid dark_mode.mode"
    else validateLinks 0 self.links

/-! The generator of src/generator.rs.  External collaborators are
oracle fields of Env: the filesystem, the network, the tera template
engine, the qrcode crate and the decode, resize and PNG encode entry
points of the image crate.  Each oracle stands for one external call
site and is a pure function, so a run of the embedded generator is one
value of the oracle record applied to one configuration. -/

/-- Result of image load_from_memory: the decoded dimensions, plus an
identifier so that distinct decoded contents stay distinct for the
encode oracle. -/
structure DecodedImage where
  width : Nat
  height : Nat
  ident : Nat
deriving DecidableEq, Repr

/-- The rendering context generate inserts for the CSS template
(generator.rs lines 144 to 151), as named slots. -/
structure CssContext where
  theme : Theme
  profile : Profile
  typography_header : ResolvedTypography
  typography_bio : ResolvedTypography
  typography_link_title : ResolvedTypography
  typography_link_description : ResolvedTypography
deriving DecidableEq, Repr

/-- The rendering context generate inserts for the HTML template
(generator.rs lines 179 to 197), as named slots; the QR entry is
absent exactly when the source inserts no qr_code_data key. -/
structure HtmlContext where
  profile : Profile
  theme : Theme
  dark_mode : DarkMode
  meta : Meta
  links : List Link
  css : String
  js : String
  qr_code_data : Option String
deriving DecidableEq, Repr

structure Env where
  /-- fs read_to_string of a theme file, by file name. -/
  loadThemeFile : String → Except String String
  /-- tera add_raw_template for the CSS template. -/
  addCssTemplate : String → Except String Unit
  /-- tera render of the CSS template on the CSS context. -/
  renderCss : CssContext → Except String String
  /-- tera add_raw_template for the HTML template. -/
  addHtmlTemplate : String → Except String Unit
  /-- tera render of the HTML template on the HTML context. -/
  renderHtml : HtmlContext → Except String String
  /-- QrCode new on the URL bytes, rendering into the 200 by 200 box
  and PNG encoding, collapsed to one oracle because both failure
  points of generate_qr_code propagate identically. -/
  qrPngEncode : String → Except String (List Nat)
  /-- ureq get, call and read_to_end, collapsed to one oracle because
  both failure points of download_and_embed_image propagate into the
  same context. -/
  fetch : String → Except String (List Nat)
  /-- std path exists. -/
  fileExists : String → Bool
  /-- fs read of a local file. -/
  readFile : String → Except String (List Nat)
  /-- image load_from_memory: none models a decode error. -/
  decodeImage : List Nat → Option DecodedImage
  /-- DynamicImage resize to the given bounds with the Lanczos3 filter
  followed by write_to in PNG format, collapsed to one oracle; only
  the write can fail. -/
  encodePng : DecodedImage → Nat → Nat → Except String (List Nat)
  /-- create_dir_all on the output parent plus fs write, collapsed to
  one oracle. -/
  writeOutput : String → Except String Unit

/-- Generator resize_image, generator.rs lines 249 to 284: decode, and
if both dimensions are at or below the target return the input bytes
unchanged; otherwise resize to the computed dimensions and re-encode
as PNG. -/
def resize_image (env : Env) (image_data : List Nat) (target_size : Nat) :
    Except String (List Nat) :=
  match env.decodeImage image_data with
  | none => .error "Failed to load image for resizing"
  | some img =>
    if img.width ≤ target_size ∧ img.height ≤ target_size then
      .ok image_data
    else
      let nd := newDims img.width img.height target_size
      env.encodePng img nd.1 nd.2

/-- The resize with fallback step shared by download_and_embed_image
(generator.rs lines 402 to 420), process_icon (lines 485 to 503) and
process_favicon (lines 575 to 597): a resize error keeps the original
bytes. -/
def resizeOr (env : Env) (data : List Nat) (size : Nat) : List Nat :=
  match resize_image env data size with
  | .ok resized => resized
  | .error _ => data

/-- MIME inference from the URL string for a non resized remote image,
generator.rs lines 425 to 440. -/
def urlMime (url : String) : String :=
  if strEndsWith url ".jpg" || strEndsWith url ".jpeg" ||
     strContains url ".jpg?" || strContains url ".jpeg?" then "image/jpeg"
  else if strEndsWith url ".gif" || strContains url ".gif?" then "image/gif"
  else if strEndsWith url ".webp" || strContains url ".webp?" then "image/webp"
  else if strEndsWith url ".ico" || strContains url ".ico?" then "image/x-icon"
  else "image/png"

/-- MIME inference from the file extension for a non resized local
icon, generator.rs lines 508 to 515. -/
def extMime (ext : Option String) : String :=
  match ext with
  | some "png" => "image/png"
  | some "jpg" => "image/jpeg"
  | some "jpeg" => "image/jpeg"
  | some "gif" => "image/gif"
  | some "webp" => "image/webp"
  | some "ico" => "image/x-icon"
  | _ => "image/png"

/-- SVG sniff of download_and_embed_image, generator.rs lines 391 to
394: URL suffix, URL with query, or a byte level prefix check.  The
source compares slices of the byte buffer, with a strict length bound
of five for the XML declaration check and four for the svg tag check. -/
def isSvgRemote (url : String) (image_data : List Nat) : Bool :=
  strEndsWith url ".svg" || strContains url ".svg?" ||
  (decide (5 < image_data.length) && decide (image_data.take 5 = asciiBytes "<?xml")) ||
  (decide (4 < image_data.length) && decide (image_data.take 4 = asciiBytes "<svg"))

/-- Generator download_and_embed_image, generator.rs lines 375 to 446:
fetch, sniff for SVG and delegate to the recolorer, otherwise resize
with fallback when a target is given, then label with a MIME type that
is image/png whenever a target was given and is inferred from the URL
otherwise, and return a base64 data URI. -/
def download_and_embed_image (env : Env) (url : String)
    (target_size : Option Nat) : Except String String := do
  let image_data ← env.fetch url
  if isSvgRemote url image_data then
    process_svg_for_inline image_data
  else
    let final_data := match target_size with
      | some size => resizeOr env image_data size
      | none => image_data
    let mime_type := if target_size.isSome then "image/png" else urlMime url
    pure ("data:" ++ mime_type ++ ";base64," ++ base64String final_data)

/-- Generator process_icon, generator.rs lines 448 to 525: data URIs
pass through, remote URLs are downloaded with URL fallback on error,
existing local files are read and embedded (SVG files go through the
recolorer), anything else passes through as literal text. -/
def process_icon (env : Env) (icon : String) (target_size : Option Nat) :
    Except String String :=
  if strStartsWith icon "data:" then .ok icon
  else if strStartsWith icon "http://" || strStartsWith icon "https://" ||
          strStartsWith icon "//" then
    match download_and_embed_image env icon target_size with
    | .ok embedded => .ok embedded
    | .error _ => .ok icon
  else if env.fileExists icon then do
    let file_data ← env.readFile icon
    let is_svg := pathExtension icon = some "svg"
    if is_svg then
      process_svg_for_inline file_data
    else
      let final_data := match target_size with
        | some size => resizeOr env file_data size
        | none => file_data
      let mime_type := if target_size.isSome then "image/png"
                       else extMime (pathExtension icon)
      pure ("data:" ++ mime_type ++ ";base64," ++ base64String final_data)
  else .ok icon

/-- The per icon step of generate (generator.rs lines 84 to 120): a
process_icon error is only a printed warning and the original reference
string stays in place. -/
def processIconOr (env : Env) (icon : String) (target_size : Option Nat) :
    String :=
  match process_icon env icon target_size with
  | .ok processed => processed
  | .error _ => icon

/-- Generator process_favicon, generator.rs lines 527 to 621. -/
def process_favicon (env : Env) (cfg : Config) (target_size : Option Nat) :
    Except String (Option String) :=
  match cfg.meta.favicon with
  | none => .ok none
  | some favicon =>
    if favicon.isEmpty then .ok none
    else if strStartsWith favicon "data:" then .ok (some favicon)
    else if strStartsWith favicon "http://" || strStartsWith favicon "https://" ||
            strStartsWith favicon "//" then
      match download_and_embed_image env favicon target_size with
      | .ok embedded => .ok (some embedded)
      | .error _ => .ok (some favicon)
    else if ¬env.fileExists favicon then .ok none
    else do
      let file_data ← env.readFile favicon
      let is_svg := pathExtension favicon = some "svg"
      let is_ico := pathExtension favicon = some "ico"
      let final_data := match target_size with
        | some size =>
          if is_svg ∨ is_ico then file_data
          else resizeOr env file_data size
        | none => file_data
      let mime_type :=
        if target_size.isSome ∧ ¬is_svg ∧ ¬is_ico then "image/png"
        else match pathExtension favicon with
          | some "ico" => "image/x-icon"
          | some "png" => "image/png"
          | some "jpg" => "image/jpeg"
          | some "jpeg" => "image/jpeg"
          | some "gif" => "image/gif"
          | some "svg" => "image/svg+xml"
          | some "webp" => "image/webp"
          | _ => "image/x-icon"
      pure (some ("data:" ++ mime_type ++ ";base64," ++ base64String final_data))

/-- Generator generate_qr_code, generator.rs lines 222 to 247: encode
the URL, render and PNG encode (the oracle), then wrap the bytes in a
base64 PNG data URI.  Both failure points propagate. -/
def generate_qr_code (env : Env) (url : String) : Except String String := do
  let png_data ← env.qrPngEncode url
  pure ("data:image/png;base64," ++ base64String png_data)

/-- The four typography resolutions of generate, generator.rs lines 122
to 142: each role is resolved with the legacy light and dark theme
colors of that role passed as some value. -/
def resolvedTypographies (cfg : Config) :
    ResolvedTypography × ResolvedTypography × ResolvedTypography ×
      ResolvedTypography :=
  (cfg.theme.typography.resolve cfg.theme.typography.header
     (some cfg.theme.light.header_color) (some cfg.theme.dark.header_color),
   cfg.theme.typography.resolve cfg.theme.typography.bio
     (some cfg.theme.light.bio_color) (some cfg.theme.dark.bio_color),
   cfg.theme.typography.resolve cfg.theme.typography.link_title
     (some cfg.theme.light.link_title_color)
     (some cfg.theme.dark.link_title_color),
   cfg.theme.typography.resolve cfg.theme.typography.link_description
     (some cfg.theme.light.link_description_color)
     (some cfg.theme.dark.link_description_color))

/-- The two rendering contexts a successful generate run hands to the
external template renderer, returned so that the embedded run exposes
its interface to the renderer; the source itself returns unit after
writing the rendered output. -/
structure GenOutput where
  css_context : CssContext
  html_context : HtmlContext
deriving DecidableEq, Repr

/-- Generator generate, generator.rs lines 59 to 214, stopping at the
rendering contexts handed to the external template renderer and writer:
validate, load theme files, process the profile, social and link icons
with warning only fallbacks, resolve typography, render CSS, generate
the QR artifact when a page URL is configured and nonempty (an error
here propagates), process the favicon, assemble the HTML context,
render and write. -/
def generate (env : Env) (cfg : Config) : Except String GenOutput := do
  let () ← cfg.validate
  let html_template ← env.loadThemeFile "template.html"
  let css_template ← env.loadThemeFile "style.css"
  let js_content := ((env.loadThemeFile "script.js").toOption).getD ""
  let () ← env.addCssTemplate css_template
  let avatar_size := some cfg.image.avatar_size
  let social_icon_size := some cfg.image.social_icon_size
  let link_icon_size := some cfg.image.link_icon_size
  let lightAssets := cfg.profile.light
  let processedLight :=
    if ¬lightAssets.avatar.isEmpty then
      { lightAssets with avatar := processIconOr env lightAssets.avatar avatar_size }
    else lightAssets
  let darkAssets := cfg.profile.dark
  let processedDark :=
    if ¬darkAssets.avatar.isEmpty then
      { darkAssets with avatar := processIconOr env darkAssets.avatar avatar_size }
    else darkAssets
  let processedSocial := cfg.profile.social_links.map (fun sl =>
    if ¬sl.icon.isEmpty then
      { sl with icon := processIconOr env sl.icon social_icon_size }
    else sl)
  let processed_profile :=
    { cfg.profile with light := processedLight, dark := processedDark,
                       social_links := processedSocial }
  let processed_links := cfg.links.map (fun l =>
    match l.icon with
    | some ic =>
      if ¬ic.isEmpty then { l with icon := some (processIconOr env ic link_icon_size) }
      else l
    | none => l)
  let rt := resolvedTypographies cfg
  let css_context : CssContext :=
    { theme := cfg.theme, profile := processed_profile,
      typography_header := rt.1, typography_bio := rt.2.1,
      typography_link_title := rt.2.2.1,
      typography_link_description := rt.2.2.2 }
  let rendered_css ← env.renderCss css_context
  let () ← env.addHtmlTemplate html_template
  let qr_code_data ← match cfg.meta.page_url with
    | some page_url =>
      if ¬page_url.isEmpty then do
        let q ← generate_qr_code env page_url
        pure (some q)
      else pure none
    | none => pure none
  let processed_favicon ← process_favicon env cfg (some cfg.image.favicon_size)
  let meta_with_favicon := match processed_favicon with
    | some favicon_data => { cfg.meta with favicon := some favicon_data }
    | none => cfg.meta
  let html_context : HtmlContext :=
    { profile := processed_profile, theme := cfg.theme,
      dark_mode := cfg.dark_mode, meta := meta_with_favicon,
      links := processed_links, css := rendered_css, js := js_content,
      qr_code_data := qr_code_data }
  let rendered_html ← env.renderHtml html_context
  let () ← env.writeOutput rendered_html
  pure ⟨css_context, html_context⟩

/-! Concrete environments and configurations used to evaluate the
embedded generator on closed inputs. -/

/-- Environment in which every structural collaborator succeeds; the
network is down, no local file exists and no image decodes, which the
individual fixtures override as needed. -/
def envAllOk : Env :=
  { loadThemeFile := fun _ => .ok ""
    addCssTemplate := fun _ => .ok ()
    renderCss := fun _ => .ok ""
    addHtmlTemplate := fun _ => .ok ()
    renderHtml := fun _ => .ok ""
    qrPngEncode := fun _ => .ok [0]
    fetch := fun _ => .error "offline"
    fileExists := fun _ => false
    readFile := fun _ => .error "no file"
    decodeImage := fun _ => none
    encodePng := fun _ _ _ => .error "no encode"
    writeOutput := fun _ => .ok () }

def themeSimple : Theme :=
  { name := "simple", button_style := "rounded",
    font_family := "system-ui, -apple-system, sans-serif",
    link_spacing := "24px", typography := Typography.builtin,
    light := ThemeColors.default, dark := ThemeColors.default }

/-- A minimal valid configuration: one titled block link, no assets. -/
def cfgBase : Config :=
  { profile :=
      { name := "Test", bio := "Bio", social_links := [],
        light := { avatar := "", background := none, background_image := none },
        dark := { avatar := "", background := none, background_image := none } }
    theme := themeSimple
    meta :=
      { title := "T", description := "D", page_url := none, favicon := none,
        custom_css := none, analytics := none, show_footer := true,
        share_title := none }
    links := [{ title := some "My Website", url := some "https://example.com",
                icon := none, description := none, link_type := "block",
                height := none }]
    dark_mode := { mode := "disable" }
    image := ImageSettings.default }

/-- Environment whose QR encoder rejects every payload. -/
def envQrFail : Env := { envAllOk with qrPngEncode := fun _ => .error "QR fail" }

/-- The base configuration with a nonempty destination page URL. -/
def cfgWithPageUrl : Config :=
  { cfgBase with
    meta := { cfgBase.meta with page_url := some "https://example.com" } }

/-- Environment with one local file, icon.svg, whose bytes are not
valid UTF-8. -/
def envBadSvgIcon : Env :=
  { envAllOk with
    fileExists := fun p => p = "icon.svg"
    readFile := fun p => if p = "icon.svg" then .ok [0xFF] else .error "no file" }

/-- The base configuration with one social link whose icon names the
local file icon.svg. -/
def cfgWithSvgIcon : Config :=
  { cfgBase with
    profile :=
      { cfgBase.profile with
        social_links := [{ icon := "icon.svg", url := "https://x.example",
                           title := none }] } }

/-- Environment that fetches six bytes of undecodable raster data for
every URL. -/
def envJpgFetch : Env :=
  { envAllOk with fetch := fun _ => .ok [1, 2, 3, 4, 5, 6] }

/-- Environment whose image decoder reports ten by five pixels for
every buffer. -/
def envSmallImage : Env :=
  { envAllOk with decodeImage := fun _ => some ⟨10, 5, 0⟩ }

/-- Environment with one local file, fav.svg, holding the ASCII bytes
of the text abc. -/
def envSvgFavicon : Env :=
  { envAllOk with
    fileExists := fun p => p = "fav.svg"
    readFile := fun p => if p = "fav.svg" then .ok (asciiBytes "abc")
                         else .error "no file" }

/-- The base configuration with the favicon naming the local file
fav.svg. -/
def cfgWithSvgFavicon : Config :=
  { cfgBase with meta := { cfgBase.meta with favicon := some "fav.svg" } }

/-- Environment with one local file, pic.bin, holding six bytes of
undecodable raster data. -/
def envLocalRaster : Env :=
  { envAllOk with
    fileExists := fun p => p = "pic.bin"
    readFile := fun p => if p = "pic.bin" then .ok [1, 2, 3, 4, 5, 6]
                         else .error "no file" }

/-! Helper lemmas: elimination principles for the Except bind chains of
the embedded generate, and the behaviour of one scanRewrite pass on a
text whose match structure is known. -/

theorem isOk_bind_all {e a b : Type} (x : Except e a) (f : a → Except e b)
    (h : ∀ v, (f v).isOk = false) : (Bind.bind x f).isOk = false := by
  cases x with
  | error s => simp [Bind.bind, Except.bind, Except.isOk, Except.toBool]
  | ok v => simpa [Bind.bind, Except.bind] using h v

theorem isOk_bind_err {e a b : Type} (x : Except e a) (f : a → Except e b)
    (h : x.isOk = false) : (Bind.bind x f).isOk = false := by
  cases x with
  | error s => simp [Bind.bind, Except.bind, Except.isOk, Except.toBool]
  | ok v => simp [Except.isOk, Except.toBool] at h

theorem bind_ok_elim {e a b : Type} {x : Except e a} {f : a → Except e b}
    {r : b} (h : Bind.bind x f = Except.ok r) :
    ∃ v, x = Except.ok v ∧ f v = Except.ok r := by
  cases x with
  | error s => simp [Bind.bind, Except.bind] at h
  | ok v => exact ⟨v, rfl, by simpa [Bind.bind, Except.bind] using h⟩

/-- Successful generate runs insert exactly the four resolved
typography values into the CSS rendering context. -/
theorem generate_ok_css_typography (env : Env) (cfg : Config)
    (out : GenOutput) (h : generate env cfg = .ok out) :
    out.css_context.typography_header = (resolvedTypographies cfg).1 ∧
    out.css_context.typography_bio = (resolvedTypographies cfg).2.1 ∧
    out.css_context.typography_link_title = (resolvedTypographies cfg).2.2.1 ∧
    out.css_context.typography_link_description =
      (resolvedTypographies cfg).2.2.2 := by
  unfold generate at h
  repeat obtain ⟨_, _, h⟩ := bind_ok_elim h
  cases hp : cfg.meta.page_url with
  | none =>
    simp only [hp] at h
    repeat obtain ⟨_, _, h⟩ := bind_ok_elim h
    simp only [pure, Except.pure, Except.ok.injEq] at h
    subst h
    exact ⟨rfl, rfl, rfl, rfl⟩
  | some page_url =>
    simp only [hp] at h
    cases hne : page_url.isEmpty with
    | true =>
      rw [if_neg (by simp [hne])] at h
      repeat obtain ⟨_, _, h⟩ := bind_ok_elim h
      simp only [pure, Except.pure, Except.ok.injEq] at h
      subst h
      exact ⟨rfl, rfl, rfl, rfl⟩
    | false =>
      rw [if_pos (by simp [hne])] at h
      repeat obtain ⟨_, _, h⟩ := bind_ok_elim h
      simp only [pure, Except.pure, Except.ok.injEq] at h
      subst h
      exact ⟨rfl, rfl, rfl, rfl⟩

theorem scanRewriteFuel_nil (m : List Char → Option (Nat × List Char)) :
    ∀ f, scanRewriteFuel m f [] = [] := by
  intro f
  cases f <;> rfl

theorem scanRewriteFuel_congr (m : List Char → Option (Nat × List Char)) :
    ∀ f1 f2 l, l.length ≤ f1 → l.length ≤ f2 →
      scanRewriteFuel m f1 l = scanRewriteFuel m f2 l := by
  intro f1
  induction f1 with
  | zero =>
    intro f2 l h1 h2
    have : l = [] := List.eq_nil_of_length_eq_zero (Nat.le_zero.mp h1)
    subst this
    simp [scanRewriteFuel_nil]
  | succ f ih =>
    intro f2 l h1 h2
    cases l with
    | nil => simp [scanRewriteFuel_nil]
    | cons c rest =>
      cases f2 with
      | zero => simp at h2
      | succ f2p =>
        cases hm : m (c :: rest) with
        | none =>
          simp only [List.length_cons] at h1 h2
          simp only [scanRewriteFuel, hm]
          rw [ih f2p rest (by omega) (by omega)]
        | some pr =>
          cases pr with
          | mk k repl =>
            simp only [List.length_cons] at h1 h2
            simp only [scanRewriteFuel, hm]
            have hd : (rest.drop (k - 1)).length ≤ rest.length := by
              simp [List.length_drop]
            rw [ih f2p (rest.drop (k - 1)) (by omega) (by omega)]

theorem scanRewriteFuel_eq (m : List Char → Option (Nat × List Char))
    (f : Nat) (l : List Char) (h : l.length ≤ f) :
    scanRewriteFuel m f l = scanRewrite m l :=
  scanRewriteFuel_congr m f l.length l h (Nat.le_refl _)

theorem scanRewrite_cons_match (m : List Char → Option (Nat × List Char))
    (c : Char) (rest : List Char) (k : Nat) (repl : List Char)
    (hm : m (c :: rest) = some (k, repl)) :
    scanRewrite m (c :: rest) = repl ++ scanRewrite m (rest.drop (k - 1)) := by
  show scanRewriteFuel m (c :: rest).length (c :: rest) = _
  simp only [List.length_cons, scanRewriteFuel, hm]
  rw [scanRewriteFuel_eq m rest.length (rest.drop (k - 1))
    (by simp [List.length_drop])]

theorem scanRewrite_cons_none (m : List Char → Option (Nat × List Char))
    (c : Char) (rest : List Char) (hm : m (c :: rest) = none) :
    scanRewrite m (c :: rest) = c :: scanRewrite m rest := by
  show scanRewriteFuel m (c :: rest).length (c :: rest) = _
  simp only [List.length_cons, scanRewriteFuel, hm]
  rfl

theorem scanRewrite_full_match (m : List Char → Option (Nat × List Char))
    (l repl : List Char) (hm : m l = some (l.length, repl)) (hl : l ≠ []) :
    scanRewrite m l = repl := by
  cases l with
  | nil => exact absurd rfl hl
  | cons c rest =>
    rw [scanRewrite_cons_match m c rest (c :: rest).length repl hm]
    simp [scanRewrite, scanRewriteFuel_nil]

theorem scanRewrite_pos_match (m : List Char → Option (Nat × List Char))
    (l repl : List Char) (k : Nat) (hm : m l = some (k, repl)) (hl : l ≠ [])
    (hk : 1 ≤ k) :
    scanRewrite m l = repl ++ scanRewrite m (l.drop k) := by
  cases l with
  | nil => exact absurd rfl hl
  | cons c rest =>
    rw [scanRewrite_cons_match m c rest k repl hm]
    cases k with
    | zero => omega
    | succ j => simp [List.drop_succ_cons]

theorem splitOnChar_append (stop : Char) :
    ∀ v post, stop ∉ v → splitOnChar stop (v ++ stop :: post) = some (v, post) := by
  intro v
  induction v with
  | nil => intro post h; simp [splitOnChar]
  | cons a v ih =>
    intro post h
    have ha : a ≠ stop := fun he => h (by simp [he])
    have hv : stop ∉ v := fun hm => h (List.mem_cons_of_mem a hm)
    simp [splitOnChar, ha, ih post hv]

theorem takeWhile_append_stop (q : Char → Bool) :
    ∀ (v : List Char) (d : Char) (w : List Char),
      (∀ c ∈ v, q c = true) → q d = false →
      (v ++ d :: w).takeWhile q = v := by
  intro v
  induction v with
  | nil => intro d w hall hd; simp [List.takeWhile, hd]
  | cons a v ih =>
    intro d w hall hd
    have ha : q a = true := hall a (by simp)
    simp [List.takeWhile, ha, ih d w (fun c hc => hall c (by simp [hc])) hd]

theorem takeWhile_all (q : Char → Bool) :
    ∀ v : List Char, (∀ c ∈ v, q c = true) → v.takeWhile q = v := by
  intro v
  induction v with
  | nil => intro h; rfl
  | cons a v ih =>
    intro h
    have ha : q a = true := h a (by simp)
    simp [List.takeWhile, ha, ih (fun c hc => h c (by simp [hc]))]

theorem isPrefixOf_self_append (p t : List Char) :
    p.isPrefixOf (p ++ t) = true := by
  rw [List.isPrefixOf_iff_prefix]
  exact List.prefix_append p t

theorem attrColorMatch_at (name v post : List Char) (hv : '"' ∉ v) :
    attrColorMatch name (name ++ '=' :: '"' :: v ++ '"' :: post) =
      some (name.length + 2 + v.length + 1,
        if v = "none".data then name ++ '=' :: '"' :: v ++ ['"']
        else name ++ "=\"currentColor\"".data) := by
  have hshape : name ++ '=' :: '"' :: v ++ '"' :: post =
      (name ++ ['=', '"']) ++ (v ++ '"' :: post) := by simp
  unfold attrColorMatch
  rw [hshape, isPrefixOf_self_append]
  have hlen : (name ++ ['=', '"']).length = name.length + 2 := by simp
  rw [if_pos rfl]
  rw [show name.length + 2 = (name ++ ['=', '"']).length from hlen.symm]
  rw [List.drop_left]
  rw [splitOnChar_append '"' v post hv]
  by_cases hn : v = "none".data
  · simp [hn]
  · simp [hn]

theorem attr_color_single (name v : List Char) (hv : '"' ∉ v) :
    scanRewrite (attrColorMatch name) (name ++ '=' :: '"' :: v ++ ['"']) =
      (if v = "none".data then name ++ '=' :: '"' :: v ++ ['"']
       else name ++ "=\"currentColor\"".data) := by
  apply scanRewrite_full_match
  · have h := attrColorMatch_at name v [] hv
    have hlen : (name ++ '=' :: '"' :: v ++ ['"']).length =
        name.length + 2 + v.length + 1 := by simp; omega
    rw [hlen]
    exact h
  · simp

theorem styleColorMatch_semicolon_none (name : List Char) :
    styleColorMatch name [';'] = none := by
  unfold styleColorMatch
  have hpre : (name ++ [':']).isPrefixOf [';'] = false := by
    cases name with
    | nil => decide
    | cons a tl =>
      show ((a :: tl) ++ [':']).isPrefixOf [';'] = false
      simp only [List.cons_append, List.isPrefixOf]
      cases htl : tl ++ [':'] with
      | nil => exact absurd htl (by simp)
      | cons b tb => simp [List.isPrefixOf]
  rw [hpre]
  simp

theorem takeWhile_prefix_ne_of_length (tok : List Char) (q : Char → Bool)
    (hws : tok.takeWhile q ≠ tok) :
    ((tok.takeWhile q).length = tok.length) = False := by
  simp only [eq_iff_iff, iff_false]
  intro hlen
  exact hws (List.IsPrefix.eq_of_length (List.takeWhile_prefix q) hlen)

theorem styleColorMatch_at (name tok post : List Char) (hne : tok ≠ [])
    (hsc : ';' ∉ tok) (hws : tok.takeWhile rustIsSpace ≠ tok) :
    styleColorMatch name (name ++ ':' :: tok ++ ';' :: post) =
      some (name.length + 1 + tok.length,
        if rustTrim (tok.drop (tok.takeWhile rustIsSpace).length) = "none".data
        then name ++ [':'] ++ tok.drop (tok.takeWhile rustIsSpace).length
        else name ++ ":currentColor".data) := by
  have hshape : name ++ ':' :: tok ++ ';' :: post =
      (name ++ [':']) ++ (tok ++ ';' :: post) := by simp
  unfold styleColorMatch
  rw [hshape, isPrefixOf_self_append, if_pos rfl]
  have hdrop : ((name ++ [':']) ++ (tok ++ ';' :: post)).drop (name.length + 1) =
      tok ++ ';' :: post := by
    have hl : name.length + 1 = (name ++ [':']).length := by simp
    rw [hl, List.drop_left]
  simp only [hdrop]
  have hrun : (tok ++ ';' :: post).takeWhile (fun c => decide (c ≠ ';')) = tok := by
    apply takeWhile_append_stop
    · intro c hc
      simp only [decide_eq_true_eq]
      intro he
      exact hsc (he ▸ hc)
    · simp
  simp only [hrun]
  have hie : tok.isEmpty = false := by
    cases tok with
    | nil => exact absurd rfl hne
    | cons a b => rfl
  simp only [hie, Bool.false_eq_true, if_false]
  simp only [takeWhile_prefix_ne_of_length tok rustIsSpace hws, if_false]
  by_cases hn : rustTrim (tok.drop (tok.takeWhile rustIsSpace).length) = "none".data
  · simp [hn]
  · simp [hn]

theorem style_color_terminated (name tok : List Char) (hne : tok ≠ [])
    (hsc : ';' ∉ tok) (hws : tok.takeWhile rustIsSpace ≠ tok) :
    scanRewrite (styleColorMatch name) (name ++ ':' :: tok ++ [';']) =
      (if rustTrim (tok.drop (tok.takeWhile rustIsSpace).length) = "none".data
       then name ++ [':'] ++ tok.drop (tok.takeWhile rustIsSpace).length
       else name ++ ":currentColor".data) ++ [';'] := by
  have hmatch := styleColorMatch_at name tok [] hne hsc hws
  rw [scanRewrite_pos_match (styleColorMatch name) _ _
    (name.length + 1 + tok.length) hmatch (by simp) (by omega)]
  have hdrop : (name ++ ':' :: tok ++ [';']).drop (name.length + 1 + tok.length) =
      [';'] := by
    have hshape : name ++ ':' :: tok ++ [';'] = (name ++ ':' :: tok) ++ [';'] := by
      simp
    have hl : name.length + 1 + tok.length = (name ++ ':' :: tok).length := by
      simp
      omega
    rw [hshape, hl, List.drop_left]
  rw [hdrop]
  rw [scanRewrite_cons_none (styleColorMatch name) ';' []
    (styleColorMatch_semicolon_none name)]
  rfl

theorem styleColorMatch_at_end (name tok : List Char) (hne : tok ≠ [])
    (hsc : ';' ∉ tok) (hws : tok.takeWhile rustIsSpace ≠ tok) :
    styleColorMatch name (name ++ ':' :: tok) =
      some (name.length + 1 + tok.length,
        if rustTrim (tok.drop (tok.takeWhile rustIsSpace).length) = "none".data
        then name ++ [':'] ++ tok.drop (tok.takeWhile rustIsSpace).length
        else name ++ ":currentColor".data) := by
  have hshape : name ++ ':' :: tok = (name ++ [':']) ++ tok := by simp
  unfold styleColorMatch
  rw [hshape, isPrefixOf_self_append, if_pos rfl]
  have hdrop : ((name ++ [':']) ++ tok).drop (name.length + 1) = tok := by
    have hl : name.length + 1 = (name ++ [':']).length := by simp
    rw [hl, List.drop_left]
  simp only [hdrop]
  have hrun : tok.takeWhile (fun c => decide (c ≠ ';')) = tok := by
    apply takeWhile_all
    intro c hc
    simp only [decide_eq_true_eq]
    intro he
    exact hsc (he ▸ hc)
  simp only [hrun]
  have hie : tok.isEmpty = false := by
    cases tok with
    | nil => exact absurd rfl hne
    | cons a b => rfl
  simp only [hie, Bool.false_eq_true, if_false]
  simp only [takeWhile_prefix_ne_of_length tok rustIsSpace hws, if_false]
  by_cases hn : rustTrim (tok.drop (tok.takeWhile rustIsSpace).length) = "none".data
  · simp [hn]
  · simp [hn]

theorem style_color_at_end (name tok : List Char) (hne : tok ≠ [])
    (hsc : ';' ∉ tok) (hws : tok.takeWhile rustIsSpace ≠ tok) :
    scanRewrite (styleColorMatch name) (name ++ ':' :: tok) =
      (if rustTrim (tok.drop (tok.takeWhile rustIsSpace).length) = "none".data
       then name ++ [':'] ++ tok.drop (tok.takeWhile rustIsSpace).length
       else name ++ ":currentColor".data) := by
  apply scanRewrite_full_match
  · have h := styleColorMatch_at_end name tok hne hsc hws
    have hlen : (name ++ ':' :: tok).length = name.length + 1 + tok.length := by
      simp
      omega
    rw [hlen]
    exact h
  · simp

/-! Theorems settling the claims. -/

/-- C2: for every raster image whose decoded width and height are both
at or below the resize target, resize_image returns the input byte
sequence exactly, with no re-encoding. -/
theorem resize_within_bounds_identity (env : Env) (data : List Nat)
    (target : Nat) (img : DecodedImage)
    (hdec : env.decodeImage data = some img)
    (hw : img.width ≤ target) (hh : img.height ≤ target) :
    resize_image env data target = .ok data := by
  unfold resize_image
  rw [hdec]
  simp [hw, hh]

/-- Witness for C2: a ten by five image with target one hundred is
returned byte identical. -/
theorem resize_within_bounds_identity_witness :
    resize_image envSmallImage [1, 2, 3] 100 = .ok [1, 2, 3] :=
  resize_within_bounds_identity envSmallImage [1, 2, 3] 100 ⟨10, 5, 0⟩
    (by decide) (by decide) (by decide)

/-- C7: the resolved light color is the first present value of the
role override, the legacy per role color parameter, the global default
override and the hardcoded default, in that order; in particular with
the role override absent, legacy color #abc supplied and the built in
global default #000000 present, the resolved light color is #abc. -/
theorem light_color_cascade :
    (∀ s : Typography, ∀ e lc ld c, e.color = some c →
      (s.resolve e lc ld).color = c) ∧
    (∀ s : Typography, ∀ e ld c, e.color = none →
      (s.resolve e (some c) ld).color = c) ∧
    (∀ s : Typography, ∀ e ld c, e.color = none → s.default.color = some c →
      (s.resolve e none ld).color = c) ∧
    (∀ s : Typography, ∀ e ld, e.color = none → s.default.color = none →
      (s.resolve e none ld).color = "#000000") ∧
    (∀ ld, (Typography.builtin.resolve TypographyStyle.empty
      (some "#abc") ld).color = "#abc") := by
  refine ⟨?_, ?_, ?_, ?_, ?_⟩
  · intro s e lc ld c h
    simp [Typography.resolve, h]
  · intro s e ld c h
    simp [Typography.resolve, h]
  · intro s e ld c h hd
    simp [Typography.resolve, h, hd]
  · intro s e ld h hd
    simp [Typography.resolve, h, hd]
  · intro ld
    simp [Typography.resolve, Typography.builtin, TypographyStyle.empty]

/-- Witness for C7: the cascade instance of the claim evaluated at a
concrete role override, legacy color and dark parameter. -/
theorem light_color_cascade_witness :
    (Typography.builtin.resolve TypographyStyle.empty (some "#abc")
      none).color = "#abc" :=
  light_color_cascade.2.2.2.2 none

/-- C8: the resolved dark color is absent exactly when the role
override, the legacy dark color parameter and the global default dark
override are all absent; no hardcoded fallback is applied. -/
theorem dark_color_absent_iff (s : Typography) (e : TypographyStyle)
    (lc ld : Option String) :
    (s.resolve e lc ld).color_dark = none ↔
      e.color_dark = none ∧ ld = none ∧ s.default.color_dark = none := by
  simp [Typography.resolve, Option.or_eq_none, and_assoc]

/-- C9 counterexample: the claim that the shorter edge is the exact
ratio rounded down fails at a 230 by 69 image with target 200: the
code computes 59 while the exact floor of 69 times 200 over 230 is
60. -/
theorem resize_dims_counterexample :
    newDims 230 69 200 = (200, 59) ∧ 69 * 200 / 230 = 60 := by
  constructor
  · decide
  · decide

/-- C9 amended: the named examples hold, a 1000 by 500 image with
target 200 resizes to 200 by 100 and a 500 by 1000 image to 100 by
200, and the longer edge slot always receives exactly the target; the
shorter edge is the f32 computation, which can differ from the exact
ratio rounded down by one pixel as the counterexample shows. -/
theorem resize_dims_amended :
    newDims 1000 500 200 = (200, 100) ∧
    newDims 500 1000 200 = (100, 200) ∧
    (∀ w h t : Nat, h < w → (newDims w h t).1 = t) ∧
    (∀ w h t : Nat, w ≤ h → (newDims w h t).2 = t) := by
  refine ⟨by decide, by decide, ?_, ?_⟩
  · intro w h t hlt
    simp [newDims, hlt]
  · intro w h t hle
    simp [newDims, Nat.not_lt.mpr hle]

/-- Witness for C9 amended: the longer edge rule applied at the
counterexample dimensions. -/
theorem resize_dims_amended_witness :
    (newDims 230 69 200).1 = 200 :=
  resize_dims_amended.2.2.1 230 69 200 (by decide)

/-- Auxiliary for C10: a resolution whose legacy dark parameter is a
present value always produces a present dark color. -/
theorem resolve_dark_present (s : Typography) (e : TypographyStyle)
    (lc : Option String) (c : String) :
    ((s.resolve e lc (some c)).color_dark).isSome = true := by
  cases h : e.color_dark <;> simp [Typography.resolve, h]

/-- C10: in every successful generate run, each of the four
ResolvedTypography values inserted into the CSS rendering context has
a present dark color, because generate always passes the non optional
theme dark color fields as the legacy dark parameter. -/
theorem generate_dark_colors_present (env : Env) (cfg : Config)
    (out : GenOutput) (h : generate env cfg = .ok out) :
    (out.css_context.typography_header.color_dark).isSome = true ∧
    (out.css_context.typography_bio.color_dark).isSome = true ∧
    (out.css_context.typography_link_title.color_dark).isSome = true ∧
    (out.css_context.typography_link_description.color_dark).isSome = true := by
  obtain ⟨e1, e2, e3, e4⟩ := generate_ok_css_typography env cfg out h
  rw [e1, e2, e3, e4]
  simp only [resolvedTypographies]
  exact ⟨resolve_dark_present _ _ _ _, resolve_dark_present _ _ _ _,
    resolve_dark_present _ _ _ _, resolve_dark_present _ _ _ _⟩

/-- Witness for C10: on the concrete base run the header dark color is
present. -/
theorem generate_dark_colors_present_witness :
    (generate envAllOk cfgBase).map
      (fun out => (out.css_context.typography_header.color_dark).isSome) =
      Except.ok true := by
  cases hg : generate envAllOk cfgBase with
  | error s =>
    have hok : (generate envAllOk cfgBase).isOk = true := by decide
    rw [hg] at hok
    simp [Except.isOk, Except.toBool] at hok
  | ok out =>
    simp [Except.map,
      (generate_dark_colors_present envAllOk cfgBase out hg).1]

/-- C1 counterexample: with a configured nonempty page URL whose QR
payload the encoder rejects, generate aborts the whole run with the
encoder error instead of omitting the QR entry and completing; the
identical run with a working encoder completes. -/
theorem qr_failure_claim_counterexample :
    generate envQrFail cfgWithPageUrl = .error "QR fail" ∧
    (generate envAllOk cfgWithPageUrl).isOk = true := by
  constructor
  · decide
  · decide

/-- C1 amended: when a destination page URL is configured and nonempty
and the QR payload cannot be encoded, the error propagates out of
generate and the whole run aborts; the QR entry is only omitted when
the page URL is absent or empty. -/
theorem qr_encode_failure_aborts (env : Env) (cfg : Config) (url e : String)
    (h1 : cfg.meta.page_url = some url) (h2 : url.isEmpty = false)
    (h3 : env.qrPngEncode url = .error e) :
    (generate env cfg).isOk = false := by
  unfold generate
  apply isOk_bind_all; intro u
  apply isOk_bind_all; intro tpl
  apply isOk_bind_all; intro csst
  apply isOk_bind_all; intro u2
  apply isOk_bind_all; intro css
  apply isOk_bind_all; intro u3
  simp only [h1, h2, Bool.false_eq_true, not_false_eq_true, if_true]
  apply isOk_bind_err
  apply isOk_bind_err
  rw [h3]
  rfl

/-- Witness for C1 amended: the abort at the concrete failing run. -/
theorem qr_encode_failure_aborts_witness :
    (generate envQrFail cfgWithPageUrl).isOk = false :=
  qr_encode_failure_aborts envQrFail cfgWithPageUrl "https://example.com"
    "QR fail" (by decide) (by decide) (by decide)

/-- C3 counterexample: a fill declaration explicitly set to none, with
no trailing semicolon before the closing quote, is rewritten to
currentColor and the rest of the document is consumed, because the
captured token runs past the closing quote to the end of the text. -/
theorem svg_none_preserved_counterexample :
    process_svg_for_inline (asciiBytes "<path style=\"fill:none\"/>") =
      .ok "__INLINE_SVG__<path style=\"fill:currentColor" := by
  decide

/-- C3 amended: the fill and stroke attribute passes leave a matched
attribute set exactly to none unchanged and rewrite every other
matched quoted value to currentColor; the style declaration passes
preserve a declaration only when the captured token, which extends to
the next semicolon or to the end of the document and may cross the
closing quote, trims to none, and the replacement drops the whitespace
between the colon and the token; in particular fill none and a colored
fill behave as the spec states when the declaration is terminated by a
semicolon, and the concrete anchor rewrites hold. -/
theorem svg_recolor_amended :
    (∀ name v : List Char, '"' ∉ v →
      scanRewrite (attrColorMatch name) (name ++ '=' :: '"' :: v ++ ['"']) =
        (if v = "none".data then name ++ '=' :: '"' :: v ++ ['"']
         else name ++ "=\"currentColor\"".data)) ∧
    (∀ name tok : List Char, tok ≠ [] → ';' ∉ tok →
      tok.takeWhile rustIsSpace ≠ tok →
      scanRewrite (styleColorMatch name) (name ++ ':' :: tok ++ [';']) =
        (if rustTrim (tok.drop (tok.takeWhile rustIsSpace).length) = "none".data
         then name ++ [':'] ++ tok.drop (tok.takeWhile rustIsSpace).length
         else name ++ ":currentColor".data) ++ [';']) ∧
    (∀ name tok : List Char, tok ≠ [] → ';' ∉ tok →
      tok.takeWhile rustIsSpace ≠ tok →
      scanRewrite (styleColorMatch name) (name ++ ':' :: tok) =
        (if rustTrim (tok.drop (tok.takeWhile rustIsSpace).length) = "none".data
         then name ++ [':'] ++ tok.drop (tok.takeWhile rustIsSpace).length
         else name ++ ":currentColor".data)) ∧
    (process_svg_for_inline (asciiBytes "<path fill=\"none\"/>") =
      .ok "__INLINE_SVG__<path fill=\"none\"/>") ∧
    (process_svg_for_inline (asciiBytes "<path fill=\"#ff0000\"/>") =
      .ok "__INLINE_SVG__<path fill=\"currentColor\"/>") ∧
    (process_svg_for_inline (asciiBytes "<path style=\"fill: none;\"/>") =
      .ok "__INLINE_SVG__<path style=\"fill:none;\"/>") :=
  ⟨attr_color_single, style_color_terminated, style_color_at_end,
   by decide, by decide, by decide⟩

/-- Witness for C3 amended: the attribute rule and the terminated
declaration rule evaluated at concrete values. -/
theorem svg_recolor_amended_witness :
    scanRewrite (attrColorMatch "fill".data)
      ("fill".data ++ '=' :: '"' :: "none".data ++ ['"']) =
      "fill".data ++ '=' :: '"' :: "none".data ++ ['"'] ∧
    scanRewrite (styleColorMatch "stroke".data)
      ("stroke".data ++ ':' :: "red".data ++ [';']) =
      ("stroke".data ++ ":currentColor".data) ++ [';'] := by
  constructor
  · exact (svg_recolor_amended.1 "fill".data "none".data
      (by decide)).trans (by decide)
  · exact (svg_recolor_amended.2.1 "stroke".data "red".data (by decide)
      (by decide) (by decide)).trans (by decide)

/-- C4 counterexample: a remote jpg reference with a resize target
whose bytes cannot be decoded keeps the original bytes but is labeled
image/png, although the claim requires the extension inferred
image/jpeg for bytes that were not successfully re-encoded. -/
theorem mime_claim_counterexample :
    download_and_embed_image envJpgFetch "http://e/a.jpg" (some 100) =
      .ok "data:image/png;base64,AQIDBAUG" ∧
    urlMime "http://e/a.jpg" = "image/jpeg" ∧
    resize_image envJpgFetch [1, 2, 3, 4, 5, 6] 100 =
      .error "Failed to load image for resizing" := by
  refine ⟨by decide, by decide, by decide⟩

/-- C4 amended: the MIME label is image/png whenever a resize target
is supplied, whatever the outcome of the resize step; the extension
and query based inference applies only when no target is supplied. -/
theorem mime_target_overrides_inference :
    (∀ (env : Env) (url : String) (bytes : List Nat) (size : Nat),
      env.fetch url = .ok bytes → isSvgRemote url bytes = false →
      download_and_embed_image env url (some size) =
        .ok ("data:image/png;base64," ++ base64String (resizeOr env bytes size))) ∧
    (∀ (env : Env) (url : String) (bytes : List Nat),
      env.fetch url = .ok bytes → isSvgRemote url bytes = false →
      download_and_embed_image env url none =
        .ok ("data:" ++ urlMime url ++ ";base64," ++ base64String bytes)) ∧
    (∀ (env : Env) (path : String) (bytes : List Nat) (size : Nat),
      strStartsWith path "data:" = false → strStartsWith path "http://" = false →
      strStartsWith path "https://" = false → strStartsWith path "//" = false →
      env.fileExists path = true → env.readFile path = .ok bytes →
      pathExtension path ≠ some "svg" →
      process_icon env path (some size) =
        .ok ("data:image/png;base64," ++ base64String (resizeOr env bytes size))) ∧
    (∀ (env : Env) (path : String) (bytes : List Nat),
      strStartsWith path "data:" = false → strStartsWith path "http://" = false →
      strStartsWith path "https://" = false → strStartsWith path "//" = false →
      env.fileExists path = true → env.readFile path = .ok bytes →
      pathExtension path ≠ some "svg" →
      process_icon env path none =
        .ok ("data:" ++ extMime (pathExtension path) ++ ";base64," ++
          base64String bytes)) := by
  refine ⟨?_, ?_, ?_, ?_⟩
  · intro env url bytes size hf hs
    simp [download_and_embed_image, hf, hs, bind, Except.bind, pure, Except.pure]
  · intro env url bytes hf hs
    simp [download_and_embed_image, hf, hs, bind, Except.bind, pure, Except.pure]
  · intro env path bytes size hd hh hhs hss hex hr hsvg
    simp [process_icon, hd, hh, hhs, hss, hex, hr, hsvg, bind, Except.bind,
      pure, Except.pure]
  · intro env path bytes hd hh hhs hss hex hr hsvg
    simp [process_icon, hd, hh, hhs, hss, hex, hr, hsvg, bind, Except.bind,
      pure, Except.pure]

/-- Witness for C4 amended: the four rules evaluated on the concrete
remote and local fixtures. -/
theorem mime_target_overrides_inference_witness :
    download_and_embed_image envJpgFetch "http://e/pic.bin" (some 100) =
      .ok ("data:image/png;base64," ++
        base64String (resizeOr envJpgFetch [1, 2, 3, 4, 5, 6] 100)) ∧
    download_and_embed_image envJpgFetch "http://e/pic.bin" none =
      .ok ("data:" ++ urlMime "http://e/pic.bin" ++ ";base64," ++
        base64String [1, 2, 3, 4, 5, 6]) ∧
    process_icon envLocalRaster "pic.bin" (some 100) =
      .ok ("data:image/png;base64," ++
        base64String (resizeOr envLocalRaster [1, 2, 3, 4, 5, 6] 100)) ∧
    process_icon envLocalRaster "pic.bin" none =
      .ok ("data:" ++ extMime (pathExtension "pic.bin") ++ ";base64," ++
        base64String [1, 2, 3, 4, 5, 6]) :=
  ⟨mime_target_overrides_inference.1 envJpgFetch "http://e/pic.bin"
     [1, 2, 3, 4, 5, 6] 100 (by decide) (by decide),
   mime_target_overrides_inference.2.1 envJpgFetch "http://e/pic.bin"
     [1, 2, 3, 4, 5, 6] (by decide) (by decide),
   mime_target_overrides_inference.2.2.1 envLocalRaster "pic.bin"
     [1, 2, 3, 4, 5, 6] 100 (by decide) (by decide) (by decide) (by decide)
     (by decide) (by decide) (by decide),
   mime_target_overrides_inference.2.2.2 envLocalRaster "pic.bin"
     [1, 2, 3, 4, 5, 6] (by decide) (by decide) (by decide) (by decide)
     (by decide) (by decide) (by decide)⟩

/-- C5 counterexample: a local SVG social icon with invalid UTF-8
bytes makes the resolver fail, yet the run completes with the original
reference string substituted in place, not with the asset omitted. -/
theorem svg_utf8_failure_claim_counterexample :
    (generate envBadSvgIcon cfgWithSvgIcon).map
      (fun out => out.html_context.profile.social_links) =
      Except.ok [{ icon := "icon.svg", url := "https://x.example",
                   title := none }] ∧
    process_icon envBadSvgIcon "icon.svg" (some 128) =
      .error "Failed to parse SVG as UTF-8" := by
  constructor
  · decide
  · decide

/-- C5 amended: on vector bytes that are not valid UTF-8 the resolver
reports an error for that asset, and the orchestrator step keeps the
original reference string in place; the run completes. -/
theorem svg_utf8_failure_keeps_original :
    (∀ bytes : List Nat, utf8Decode bytes = none →
      process_svg_for_inline bytes = .error "Failed to parse SVG as UTF-8") ∧
    (∀ (env : Env) (icon : String) (size : Option Nat) (e : String),
      process_icon env icon size = .error e →
      processIconOr env icon size = icon) := by
  constructor
  · intro bytes h
    unfold process_svg_for_inline
    rw [h]
  · intro env icon size e h
    unfold processIconOr
    rw [h]

/-- Witness for C5 amended: the invalid byte and the concrete icon
step. -/
theorem svg_utf8_failure_keeps_original_witness :
    process_svg_for_inline [255] = .error "Failed to parse SVG as UTF-8" ∧
    processIconOr envBadSvgIcon "icon.svg" (some 128) = "icon.svg" :=
  ⟨svg_utf8_failure_keeps_original.1 [255] (by decide),
   svg_utf8_failure_keeps_original.2 envBadSvgIcon "icon.svg" (some 128)
     "Failed to parse SVG as UTF-8" (by decide)⟩

/-- C6 counterexample: a favicon naming an existing local svg file is
embedded as a base64 data URI with the image/svg+xml MIME type, not
returned as the inline markup sentinel result of the recolorer. -/
theorem local_svg_favicon_claim_counterexample :
    process_favicon envSvgFavicon cfgWithSvgFavicon (some 64) =
      .ok (some "data:image/svg+xml;base64,YWJj") ∧
    strStartsWith "data:image/svg+xml;base64,YWJj" "__INLINE_SVG__" = false := by
  constructor
  · decide
  · decide

/-- C6 amended: a favicon reference naming an existing local file with
extension svg is read and embedded as a base64 data URI labeled
image/svg+xml, skipping the resize step; the Vector Recolorer is not
involved for local favicon files. -/
theorem local_svg_favicon_embedded (env : Env) (cfg : Config)
    (path : String) (bytes : List Nat) (size : Nat)
    (hfav : cfg.meta.favicon = some path) (hne : path.isEmpty = false)
    (hd : strStartsWith path "data:" = false)
    (hh : strStartsWith path "http://" = false)
    (hhs : strStartsWith path "https://" = false)
    (hss : strStartsWith path "//" = false)
    (hex : env.fileExists path = true)
    (hr : env.readFile path = .ok bytes)
    (hsvg : pathExtension path = some "svg") :
    process_favicon env cfg (some size) =
      .ok (some ("data:image/svg+xml;base64," ++ base64String bytes)) := by
  unfold process_favicon
  rw [hfav]
  simp [hne, hd, hh, hhs, hss, hex, hr, hsvg, bind, Except.bind, pure,
    Except.pure]

/-- Witness for C6 amended: the concrete local svg favicon run. -/
theorem local_svg_favicon_embedded_witness :
    process_favicon envSvgFavicon cfgWithSvgFavicon (some 64) =
      .ok (some ("data:image/svg+xml;base64," ++
        base64String (asciiBytes "abc"))) :=
  local_svg_favicon_embedded envSvgFavicon cfgWithSvgFavicon "fav.svg"
    (asciiBytes "abc") 64 (by decide) (by decide) (by decide) (by decide)
    (by decide) (by decide) (by decide) (by decide) (by decide)

end Genkan
